import Mathlib

/-!
Verification of the CCP master engine (`pyccp/master.py`) against its
natural-language specification.

The embedding models `Master` together with its CAN transport as one explicit
state (`SysState`).  Time is modelled by rationals; the inbound side of the
transport is a finite trace of (absolute arrival time, frame) pairs, consumed
in order by the polling loop of `Master.get_data`.  Python exceptions are
modelled by `Except`: each modelled method returns its Python result (or the
exception it raises) together with the state after the call.

The module `pyccp.ccp` (imported by `master.py`) is not part of the sources;
the few constants and the one function the claims need from it
(`MAX_CRO`, `CommandCodes`, `CommandTimeout`, `verify_ctr`) are modelled from
the specification and marked as such in their doc comments.
-/

namespace PyCCP

/-- A CAN message as handed to / received from the transport
(python-can `Message`): arbitration identifier plus data bytes. -/
structure Msg where
  arbitration_id : Nat
  data : List Nat
deriving DecidableEq

/-- The Python exceptions the modelled code can raise:
`valueError` for `ValueError` (oversized payload, or a byte out of 0..255 in
`bytearray`), `transportError` for an exception escaping `transport.send`,
`typeError` for `TypeError` (a required positional argument missing). -/
inductive CcpError where
  | valueError
  | transportError
  | typeError
deriving DecidableEq

/-- Modelled from the spec: `ccp.MAX_CRO` lives in the missing module
`pyccp.ccp`; spec section 3 fixes the command frame at 8 bytes. -/
def MAX_CRO : Nat := 8

/-- Modelled from the spec: `ccp.CommandCodes` is a closed enumeration in the
missing module `pyccp.ccp`.  The spec gives no numeric opcode values; the
values of the CCP standard it references are used (they are immaterial to the
claims, which only need named, distinct opcodes). -/
def CommandCodes.SET_MTA : Nat := 0x02

/-- Modelled from the spec: see `CommandCodes.SET_MTA`. -/
def CommandCodes.DNLOAD : Nat := 0x03

/-- Modelled from the spec: see `CommandCodes.SET_MTA`. -/
def CommandCodes.GET_DAQ_SIZE : Nat := 0x14

/-- Modelled from the spec: see `CommandCodes.SET_MTA`. -/
def CommandCodes.DNLOAD_6 : Nat := 0x23

/-- Modelled from the spec: `ccp.CommandTimeout` lives in the missing module
`pyccp.ccp`, one duration per command.  The spec gives no numeric values and
none of the claims depends on them; 25 ms is used throughout. -/
def CommandTimeout.SET_MTA : ℚ := 25 / 1000

/-- Modelled from the spec: see `CommandTimeout.SET_MTA`. -/
def CommandTimeout.DNLOAD : ℚ := 25 / 1000

/-- Modelled from the spec: see `CommandTimeout.SET_MTA`. -/
def CommandTimeout.GET_DAQ_SIZE : ℚ := 25 / 1000

/-- The state of a `Master` together with its transport:
`ctr` is `Master.ctr` (a `ctypes.c_uint8`, so always reduced mod 256),
`dto` is `Master._dto` (the response identifier);
`sendFails` says whether `transport.send` raises when called;
`sent` collects, in order, every frame handed to `transport.send`;
`events` is the inbound trace: (absolute arrival time, frame) in arrival
order; `now` is the current clock value. -/
structure SysState where
  ctr : Nat
  dto : Nat
  sendFails : Bool
  sent : List Msg
  events : List (ℚ × Msg)
  now : ℚ
deriving DecidableEq

/-- `self.ctr = ctypes.c_uint8(self.ctr.value + 1)` (master.py line 87):
increment with 8-bit wraparound. -/
def nextCtr (c : Nat) : Nat := (c + 1) % 256

/-- The frame built by `send_cro` (master.py lines 78-81):
`bytearray((cmd, ctr, *data))`, extended with zero bytes up to `MAX_CRO`. -/
def encode_frame (cmd ctr : Nat) (data : List Nat) : List Nat :=
  (cmd :: ctr :: data) ++ List.replicate (MAX_CRO - (cmd :: ctr :: data).length) 0

/-- `Master.send_cro` (master.py lines 54-89).  More than six data bytes raise
`ValueError` (line 75-76) before anything else happens; `bytearray` raises
`ValueError` when any of `cmd`, `ctr`, `data` is outside 0..255 (line 78),
still before any send; then the frame goes to `transport.send` (line 86), and
only after a successful send is the counter incremented (line 87) and the
`ctr` argument returned (line 89). -/
def send_cro (st : SysState) (can_id cmd ctr : Nat) (data : List Nat) :
    Except CcpError Nat × SysState :=
  if data.length > 6 then (Except.error CcpError.valueError, st)
  else if cmd < 256 ∧ ctr < 256 ∧ ∀ b ∈ data, b < 256 then
    let msg : Msg := ⟨can_id, encode_frame cmd ctr data⟩
    if st.sendFails then
      (Except.error CcpError.transportError, { st with sent := st.sent ++ [msg] })
    else
      (Except.ok ctr, { st with sent := st.sent ++ [msg], ctr := nextCtr st.ctr })
  else (Except.error CcpError.valueError, st)

/-- The polling loop of `Master.get_data` (master.py lines 91-111), for a
numeric timeout, with `deadline = start_time + timeout`.  Each iteration
recomputes `residual = timeout - (now - start) = deadline - now` and breaks
when it is not positive; `transport.recv(residual)` yields the next trace
event when it arrives within the residual window (arrival time at most the
deadline) and otherwise returns `None` after the residual elapses, upon which
the loop's next check breaks.  A frame whose identifier is not `_dto` is
discarded and polling continues.  (The `timeout=None` branch of the source is
never exercised by the commands modelled here and is not modelled.) -/
def get_data_loop (dto : Nat) (deadline : ℚ) :
    List (ℚ × Msg) → ℚ → Option Msg × ℚ × List (ℚ × Msg)
  | events, now =>
    if deadline - now ≤ 0 then (none, now, events)
    else
      match events with
      | [] => (none, deadline, [])
      | (t, m) :: rest =>
        if t ≤ deadline then
          if m.arbitration_id = dto then (some m, max now t, rest)
          else get_data_loop dto deadline rest (max now t)
        else (none, deadline, events)

/-- `Master.get_data` (master.py lines 91-111): poll from the current clock,
returning the matching message (if any), the clock after the call, and the
not-yet-consumed part of the inbound trace. -/
def get_data (st : SysState) (timeout : ℚ) : Option Msg × ℚ × List (ℚ × Msg) :=
  get_data_loop st.dto (st.now + timeout) st.events st.now

/-- Modelled from the spec: `ccp.verify_ctr` lives in the missing module
`pyccp.ccp`.  Spec section 3: a response frame's byte1 is the echoed counter;
`verify_ctr ctr data` holds exactly when the response's echoed counter equals
the counter that was sent (a response too short to carry one never verifies). -/
def verify_ctr (ctr : Nat) (data : List Nat) : Bool :=
  data.getD 1 (ctr + 1) == ctr

/-- `Master._transaction` (master.py lines 113-134): one `send_cro`, whose
exceptions propagate, then one `get_data` with the given timeout; `None` when
nothing matching arrived in time; `None` when `verify_ctr` rejects the echoed
counter (the frame stays consumed, no further poll); otherwise the response's
data bytes. -/
def transaction (st : SysState) (timeout : ℚ) (can_id command ctr : Nat)
    (data : List Nat) : Except CcpError (Option (List Nat)) × SysState :=
  match send_cro st can_id command ctr data with
  | (Except.error e, st1) => (Except.error e, st1)
  | (Except.ok ctr1, st1) =>
    let r := get_data st1 timeout
    let st2 : SysState := { st1 with now := r.2.1, events := r.2.2 }
    match r.1 with
    | none => (Except.ok none, st2)
    | some response =>
      if verify_ctr ctr1 response.data then (Except.ok (some response.data), st2)
      else (Except.ok none, st2)

/-- `MTA0` (master.py line 38). -/
def MTA0 : Nat := 0

/-- `MTA1` (master.py line 39). -/
def MTA1 : Nat := 1

/-- `struct.pack("<L", v)`: the four bytes of a 32-bit value, little-endian.
(The source's callers pass values below 2^32; `struct.error` on larger values
is not modelled.) -/
def pack_le32 (v : Nat) : List Nat :=
  [v % 256, v / 256 % 256, v / 256 ^ 2 % 256, v / 256 ^ 3 % 256]

/-- `struct.pack(">L", v)`: the four bytes of a 32-bit value, big-endian. -/
def pack_be32 (v : Nat) : List Nat :=
  [v / 256 ^ 3 % 256, v / 256 ^ 2 % 256, v / 256 % 256, v % 256]

/-- The payload `Master.set_mta` (master.py lines 175-187) passes to
`_transaction`: `mta, address_extension, *struct.pack("<L", address)`. -/
def set_mta_payload (address address_extension mta : Nat) : List Nat :=
  mta :: address_extension :: pack_le32 address

/-- `Master.set_mta` (master.py lines 175-187). -/
def set_mta (st : SysState) (can_id address : Nat)
    (address_extension : Nat := 0x00) (mta : Nat := MTA0) :
    Except CcpError (Option (List Nat)) × SysState :=
  transaction st CommandTimeout.SET_MTA can_id CommandCodes.SET_MTA st.ctr
    (set_mta_payload address address_extension mta)

/-- The payload `Master.get_daq_size` (master.py lines 208-218) passes to
`_transaction`: `daq_list_number, 0x00, *struct.pack(">L", address)`. -/
def get_daq_size_payload (daq_list_number address : Nat) : List Nat :=
  daq_list_number :: 0x00 :: pack_be32 address

/-- `Master.get_daq_size` (master.py lines 208-218). -/
def get_daq_size (st : SysState) (can_id daq_list_number address : Nat) :
    Except CcpError (Option (List Nat)) × SysState :=
  transaction st CommandTimeout.GET_DAQ_SIZE can_id CommandCodes.GET_DAQ_SIZE
    st.ctr (get_daq_size_payload daq_list_number address)

/-- `Master.dnload` (master.py lines 189-197): payload `size, *data`. -/
def dnload (st : SysState) (can_id size : Nat) (data : List Nat) :
    Except CcpError (Option (List Nat)) × SysState :=
  transaction st CommandTimeout.DNLOAD can_id CommandCodes.DNLOAD st.ctr
    (size :: data)

/-- `Master.dnload6` (master.py lines 287-290).  The source calls
`self._transaction(can_id, ccp.CommandCodes.DNLOAD_6, self.ctr.value, *data)`,
but `_transaction`'s positional parameters are
`timeout, can_id, command, ctr, *data`: so `can_id` is bound to `timeout`
(a number, hence accepted), the opcode to `can_id`, the counter to `command`,
the first data byte to `ctr`, and only the remaining data bytes to `data`.
With no data bytes at all, the required positional `ctr` is missing and
Python raises `TypeError`. -/
def dnload6 (st : SysState) (can_id : Nat) (data : List Nat) :
    Except CcpError (Option (List Nat)) × SysState :=
  match data with
  | [] => (Except.error CcpError.typeError, st)
  | d0 :: rest =>
    transaction st (can_id : ℚ) CommandCodes.DNLOAD_6 st.ctr d0 rest

/-! ## Helper lemmas -/

/-- A successful `send_cro`: payload within bounds, all bytes in range, send
not failing.  It returns the `ctr` argument, appends exactly the encoded frame
to the transport, and advances the counter. -/
theorem send_cro_ok (st : SysState) (can_id cmd ctr : Nat) (data : List Nat)
    (hc : cmd < 256) (hr : ctr < 256) (hd : ∀ b ∈ data, b < 256)
    (hlen : data.length ≤ 6) (hsf : st.sendFails = false) :
    send_cro st can_id cmd ctr data =
      (Except.ok ctr,
       { st with sent := st.sent ++ [⟨can_id, encode_frame cmd ctr data⟩],
                 ctr := nextCtr st.ctr }) := by
  unfold send_cro
  rw [if_neg (by omega), if_pos ⟨hc, hr, hd⟩, if_neg (by simp [hsf])]

/-- Unfolding of the polling loop on an empty trace. -/
theorem get_data_loop_nil (dto : Nat) (deadline now : ℚ) :
    get_data_loop dto deadline [] now =
      if deadline - now ≤ 0 then (none, now, []) else (none, deadline, []) := rfl

/-- Unfolding of the polling loop on a trace starting with an event. -/
theorem get_data_loop_cons (dto : Nat) (deadline now t : ℚ) (m : Msg)
    (rest : List (ℚ × Msg)) :
    get_data_loop dto deadline ((t, m) :: rest) now =
      if deadline - now ≤ 0 then (none, now, (t, m) :: rest)
      else if t ≤ deadline then
        (if m.arbitration_id = dto then (some m, max now t, rest)
         else get_data_loop dto deadline rest (max now t))
      else (none, deadline, (t, m) :: rest) := rfl

/-- If no event of the trace carries the wanted identifier, the polling loop
returns `none`. -/
theorem get_data_loop_no_match (dto : Nat) (deadline : ℚ) (evs : List (ℚ × Msg))
    (hm : ∀ e ∈ evs, e.2.arbitration_id ≠ dto) :
    ∀ now, (get_data_loop dto deadline evs now).1 = none := by
  induction evs with
  | nil =>
    intro now
    rw [get_data_loop_nil]
    split <;> rfl
  | cons e rest ih =>
    intro now
    obtain ⟨t, m⟩ := e
    rw [get_data_loop_cons]
    split
    · rfl
    · split
      · rw [if_neg (hm (t, m) (List.mem_cons_self _ _))]
        exact ih (fun e he => hm e (List.mem_cons_of_mem _ he)) (max now t)
      · rfl

/-- If the trace is a block of timely non-matching events followed by a timely
matching one, and the residual budget is still positive, the polling loop
returns exactly that matching event and leaves exactly the events after it. -/
theorem get_data_loop_first_match (dto : Nat) (deadline t : ℚ) (m : Msg)
    (post : List (ℚ × Msg)) (hm : m.arbitration_id = dto) (ht : t ≤ deadline) :
    ∀ (pre : List (ℚ × Msg)) (now : ℚ), now < deadline →
      (∀ e ∈ pre, e.1 < deadline ∧ e.2.arbitration_id ≠ dto) →
      (get_data_loop dto deadline (pre ++ (t, m) :: post) now).1 = some m ∧
      (get_data_loop dto deadline (pre ++ (t, m) :: post) now).2.2 = post := by
  intro pre
  induction pre with
  | nil =>
    intro now hnow _
    rw [List.nil_append, get_data_loop_cons]
    rw [if_neg (by simp only [not_le]; linarith), if_pos ht, if_pos hm]
    exact ⟨rfl, rfl⟩
  | cons e pre ih =>
    intro now hnow hpre
    obtain ⟨te, me⟩ := e
    have he := hpre (te, me) (List.mem_cons_self _ _)
    rw [List.cons_append, get_data_loop_cons]
    rw [if_neg (by simp only [not_le]; linarith), if_pos (le_of_lt he.1),
      if_neg he.2]
    exact ih (max now te) (max_lt hnow he.1)
      (fun e hee => hpre e (List.mem_cons_of_mem _ hee))

/-- The state reached by a `send_cro` that succeeds. -/
def postSend (st : SysState) (can_id cmd ctr : Nat) (data : List Nat) :
    SysState :=
  { st with sent := st.sent ++ [⟨can_id, encode_frame cmd ctr data⟩],
            ctr := nextCtr st.ctr }

/-- A `transaction` whose `send_cro` succeeds, written with the post-send state
explicit: the rest of the transaction only reads the trace and the clock. -/
theorem transaction_ok (st : SysState) (timeout : ℚ) (can_id cmd ctr : Nat)
    (data : List Nat) (hc : cmd < 256) (hr : ctr < 256)
    (hd : ∀ b ∈ data, b < 256) (hlen : data.length ≤ 6)
    (hsf : st.sendFails = false) :
    transaction st timeout can_id cmd ctr data =
      (let st1 := postSend st can_id cmd ctr data
       let r := get_data st1 timeout
       let st2 : SysState := { st1 with now := r.2.1, events := r.2.2 }
       match r.1 with
       | none => (Except.ok none, st2)
       | some response =>
         if verify_ctr ctr response.data then
           (Except.ok (some response.data), st2)
         else (Except.ok none, st2)) := by
  unfold transaction
  rw [send_cro_ok st can_id cmd ctr data hc hr hd hlen hsf]
  rfl

/-- A successful send followed by any protocol outcome: the transport carries
exactly one more frame — the encoded one — and the counter advances once. -/
theorem transaction_sent_ctr (st : SysState) (timeout : ℚ)
    (can_id cmd ctr : Nat) (data : List Nat) (hc : cmd < 256) (hr : ctr < 256)
    (hd : ∀ b ∈ data, b < 256) (hlen : data.length ≤ 6)
    (hsf : st.sendFails = false) :
    (transaction st timeout can_id cmd ctr data).2.sent
      = st.sent ++ [⟨can_id, encode_frame cmd ctr data⟩] ∧
    (transaction st timeout can_id cmd ctr data).2.ctr = nextCtr st.ctr := by
  rw [transaction_ok st timeout can_id cmd ctr data hc hr hd hlen hsf]
  dsimp only [postSend]
  split
  · exact ⟨rfl, rfl⟩
  · split <;> exact ⟨rfl, rfl⟩

/-- A transaction on a trace without any frame carrying the response
identifier: the result is `None`. -/
theorem transaction_no_match (st : SysState) (timeout : ℚ)
    (can_id cmd ctr : Nat) (data : List Nat) (hc : cmd < 256) (hr : ctr < 256)
    (hd : ∀ b ∈ data, b < 256) (hlen : data.length ≤ 6)
    (hsf : st.sendFails = false)
    (hnm : ∀ e ∈ st.events, e.2.arbitration_id ≠ st.dto) :
    (transaction st timeout can_id cmd ctr data).1 = Except.ok none := by
  rw [transaction_ok st timeout can_id cmd ctr data hc hr hd hlen hsf]
  dsimp only [postSend, get_data]
  rw [get_data_loop_no_match st.dto (st.now + timeout) st.events hnm st.now]

/-- A transaction whose trace consists of timely frames on other identifiers
followed by a timely frame on the response identifier: that frame is the one
`get_data` returns, the trace after it is left unconsumed, and the result is
its data bytes if the echoed counter verifies, else `None`. -/
theorem transaction_first_match (st : SysState) (timeout : ℚ)
    (can_id cmd ctr : Nat) (data : List Nat) (pre post : List (ℚ × Msg))
    (t : ℚ) (m : Msg) (hc : cmd < 256) (hr : ctr < 256)
    (hd : ∀ b ∈ data, b < 256) (hlen : data.length ≤ 6)
    (hsf : st.sendFails = false) (hev : st.events = pre ++ (t, m) :: post)
    (hpre : ∀ e ∈ pre, e.1 < st.now + timeout ∧ e.2.arbitration_id ≠ st.dto)
    (ht0 : 0 < timeout) (ht : t ≤ st.now + timeout)
    (hm : m.arbitration_id = st.dto) :
    (transaction st timeout can_id cmd ctr data).1
      = (if verify_ctr ctr m.data then Except.ok (some m.data)
         else Except.ok none) ∧
    (transaction st timeout can_id cmd ctr data).2.events = post := by
  rw [transaction_ok st timeout can_id cmd ctr data hc hr hd hlen hsf]
  dsimp only [postSend, get_data]
  have h := get_data_loop_first_match st.dto (st.now + timeout) t m post hm ht
    pre st.now (by linarith) hpre
  have h1 : (get_data_loop st.dto (st.now + timeout) st.events st.now).1
      = some m := by rw [hev]; exact h.1
  have h2 : (get_data_loop st.dto (st.now + timeout) st.events st.now).2.2
      = post := by rw [hev]; exact h.2
  rw [h1]
  dsimp only
  by_cases hv : verify_ctr ctr m.data = true
  · rw [if_pos hv, if_pos hv]
    exact ⟨rfl, h2⟩
  · rw [if_neg hv, if_neg hv]
    exact ⟨rfl, h2⟩

/-! ## Claim C1: `dnload6` -/

/-- A concrete starting state for exercising `dnload6`: counter 0, response
identifier 0x200, reliable transport, one inbound frame on the response
identifier arriving at time 100 echoing counter value 1. -/
def stC1 : SysState :=
  { ctr := 0, dto := 0x200, sendFails := false, sent := [],
    events := [(100, ⟨0x200, [0xFF, 1, 0, 0, 0, 0, 0, 0]⟩)], now := 0 }

/-- C1: the claim says `dnload6(can_id, data)` with six data bytes sends an
8-byte frame with arbitration id `can_id`, byte0 = the DNLOAD_6 opcode,
byte1 = the counter, bytes2-7 = the data, waiting with the DNLOAD_6 command
timeout.  The code instead forgets the `timeout` argument of `_transaction`,
shifting every argument by one: at `can_id = 0x100`, `data = [1,2,3,4,5,6]`,
counter 0, the one frame sent has arbitration id `CommandCodes.DNLOAD_6`
(not 0x100), byte0 = 0 (the counter, in the opcode slot), byte1 = 1 (the
first data byte, in the counter slot), bytes2-6 = the remaining data and
byte7 = 0; and `can_id` itself (256) serves as the timeout, so a response
arriving at time 100 — far beyond any command timeout — is still accepted
and returned as success because its echoed counter matches the data byte 1
sent in the counter slot. -/
theorem c1_dnload6_missing_timeout :
    (dnload6 stC1 0x100 [1, 2, 3, 4, 5, 6]).2.sent
      = [⟨CommandCodes.DNLOAD_6, [0, 1, 2, 3, 4, 5, 6, 0]⟩] ∧
    (dnload6 stC1 0x100 [1, 2, 3, 4, 5, 6]).1
      = Except.ok (some [0xFF, 1, 0, 0, 0, 0, 0, 0]) := by
  constructor
  · show (transaction stC1 ((0x100 : Nat) : ℚ) CommandCodes.DNLOAD_6 stC1.ctr 1
      [2, 3, 4, 5, 6]).2.sent = _
    rw [(transaction_sent_ctr stC1 ((0x100 : Nat) : ℚ) CommandCodes.DNLOAD_6
      stC1.ctr 1 [2, 3, 4, 5, 6] (by decide) (by decide) (by decide) (by decide)
      rfl).1]
    rfl
  · show (transaction stC1 ((0x100 : Nat) : ℚ) CommandCodes.DNLOAD_6 stC1.ctr 1
      [2, 3, 4, 5, 6]).1 = _
    rw [(transaction_first_match stC1 ((0x100 : Nat) : ℚ) CommandCodes.DNLOAD_6
      stC1.ctr 1 [2, 3, 4, 5, 6] [] [] 100 ⟨0x200, [0xFF, 1, 0, 0, 0, 0, 0, 0]⟩
      (by decide) (by decide) (by decide) (by decide) rfl rfl (by simp)
      (by norm_num) (by norm_num [stC1]) rfl).1]
    rfl

/-! ## Claim C6: `set_mta` vs `get_daq_size` endianness -/

/-- C6: `set_mta` packs its 32-bit address little-endian while `get_daq_size`
packs it big-endian: at address 0x12345678 the `set_mta` payload is
`[MTA0, 0x00, 0x78, 0x56, 0x34, 0x12]` and the `get_daq_size` payload (for
daq list 1) is `[1, 0x00, 0x12, 0x34, 0x56, 0x78]`. -/
theorem c6_endianness :
    set_mta_payload 0x12345678 0 MTA0 = [MTA0, 0x00, 0x78, 0x56, 0x34, 0x12] ∧
    get_daq_size_payload 1 0x12345678 = [1, 0x00, 0x12, 0x34, 0x56, 0x78] := by
  constructor <;> rfl

/-! ## Claim C8: oversized payloads are rejected before transmission -/

/-- C8: a payload of more than six bytes makes `send_cro` fail with the
oversized-payload error (`ValueError`) immediately, the state — in particular
the list of frames handed to the transport — left untouched. -/
theorem c8_payload_too_large (st : SysState) (can_id cmd ctr : Nat)
    (data : List Nat) (hlen : data.length > 6) :
    send_cro st can_id cmd ctr data = (Except.error CcpError.valueError, st) := by
  unfold send_cro
  rw [if_pos hlen]

/-- Witness for C8 at a concrete 7-byte payload. -/
theorem c8_payload_too_large_witness :
    send_cro stC1 0x100 0x03 0 [1, 2, 3, 4, 5, 6, 7]
      = (Except.error CcpError.valueError, stC1) :=
  c8_payload_too_large stC1 0x100 0x03 0 [1, 2, 3, 4, 5, 6, 7] (by decide)

/-! ## Claim C9: the counter sequencer -/

/-- The counter value after `n` successful sends, starting from the fresh
`Master`'s counter 0 (`ctypes.c_uint8(0)`, master.py line 46): each send ends
with `nextCtr` (master.py line 87), and the value drawn by the n-th catalog
call is the counter before its send. -/
def ctr_draw (n : Nat) : Nat := Nat.iterate nextCtr n 0

/-- The counter sequence is `n % 256`. -/
theorem ctr_draw_eq_mod (n : Nat) : ctr_draw n = n % 256 := by
  induction n with
  | zero => rfl
  | succ n ih =>
    show Nat.iterate nextCtr (n + 1) 0 = (n + 1) % 256
    rw [Function.iterate_succ_apply']
    show nextCtr (ctr_draw n) = (n + 1) % 256
    rw [ih]
    show (n % 256 + 1) % 256 = (n + 1) % 256
    omega

/-- C9: starting from 0, the 256 successive counter draws are 0,1,…,255 in
order, the 257th draw is 0 again (8-bit wraparound), and the values within
one cycle are pairwise distinct. -/
theorem c9_counter_cycle :
    (∀ i, i < 256 → ctr_draw i = i) ∧ ctr_draw 256 = 0 ∧
    (∀ i j, i < 256 → j < 256 → ctr_draw i = ctr_draw j → i = j) := by
  refine ⟨fun i hi => ?_, ?_, fun i j hi hj hij => ?_⟩
  · rw [ctr_draw_eq_mod, Nat.mod_eq_of_lt hi]
  · rw [ctr_draw_eq_mod]
  · rwa [ctr_draw_eq_mod, ctr_draw_eq_mod, Nat.mod_eq_of_lt hi,
      Nat.mod_eq_of_lt hj] at hij

/-- Witness for C9 at concrete draws. -/
theorem c9_counter_cycle_witness : ctr_draw 255 = 255 ∧ ctr_draw 256 = 0 :=
  ⟨c9_counter_cycle.1 255 (by decide), c9_counter_cycle.2.1⟩

/-! ## Claim C10: `dnload` cannot carry six data bytes -/

/-- C10: `dnload(can_id, size, data)` with exactly six data bytes always
raises the oversized-payload error (`ValueError`) and transmits nothing — the
implicit size byte plus six data bytes exceed the six-byte payload limit. -/
theorem c10_dnload_six_bytes (st : SysState) (can_id size : Nat)
    (data : List Nat) (hlen : data.length = 6) :
    dnload st can_id size data = (Except.error CcpError.valueError, st) := by
  unfold dnload transaction send_cro
  rw [if_pos (by simp [hlen])]

/-- Witness for C10 at a concrete six-byte download. -/
theorem c10_dnload_six_bytes_witness :
    dnload stC1 0x100 6 [1, 2, 3, 4, 5, 6]
      = (Except.error CcpError.valueError, stC1) :=
  c10_dnload_six_bytes stC1 0x100 6 [1, 2, 3, 4, 5, 6] (by decide)

/-! ## Claim C2: one counter draw, one send per catalog call -/

/-- A concrete starting state with an empty inbound trace. -/
def stC2 : SysState :=
  { ctr := 0, dto := 0x200, sendFails := false, sent := [], events := [],
    now := 0 }

/-- C2 counterexample: the claim says every catalog invocation increments the
counter exactly once and calls the transport's send exactly once *regardless
of outcome, including the oversized-payload error*.  But `dnload` with six
data bytes (payload = size byte + 6 > 6) raises before sending: the counter
is unchanged and nothing is handed to the transport. -/
theorem c2_oversized_consumes_nothing :
    (dnload stC2 0x100 6 [1, 2, 3, 4, 5, 6]).2.ctr = stC2.ctr ∧
    (dnload stC2 0x100 6 [1, 2, 3, 4, 5, 6]).2.sent = [] ∧
    (dnload stC2 0x100 6 [1, 2, 3, 4, 5, 6]).1
      = Except.error CcpError.valueError :=
  ⟨rfl, rfl, rfl⟩

/-- C2 (amended): every catalog invocation that passes payload validation
(at most 6 payload bytes, all byte-sized) and whose transport send succeeds
increments the counter exactly once and hands exactly one frame — the encoded
one — to the transport's send, regardless of protocol outcome (success,
timeout, or counter mismatch); an invocation that fails validation sends
nothing and leaves the counter unchanged. -/
theorem c2_one_send_one_increment (st : SysState) (timeout : ℚ)
    (can_id cmd ctr : Nat) (data : List Nat) (hc : cmd < 256) (hr : ctr < 256)
    (hd : ∀ b ∈ data, b < 256) (hsf : st.sendFails = false) :
    (data.length ≤ 6 →
      (transaction st timeout can_id cmd ctr data).2.ctr = nextCtr st.ctr ∧
      (transaction st timeout can_id cmd ctr data).2.sent
        = st.sent ++ [⟨can_id, encode_frame cmd ctr data⟩]) ∧
    (data.length > 6 →
      transaction st timeout can_id cmd ctr data
        = (Except.error CcpError.valueError, st)) := by
  constructor
  · intro hlen
    have h := transaction_sent_ctr st timeout can_id cmd ctr data hc hr hd
      hlen hsf
    exact ⟨h.2, h.1⟩
  · intro hlen
    unfold transaction send_cro
    rw [if_pos hlen]

/-- Witness for C2 (amended) at a concrete two-byte payload. -/
theorem c2_one_send_one_increment_witness :
    (transaction stC2 1 0x100 0x02 0 [1, 2]).2.ctr = nextCtr stC2.ctr ∧
    (transaction stC2 1 0x100 0x02 0 [1, 2]).2.sent
      = stC2.sent ++ [⟨0x100, encode_frame 0x02 0 [1, 2]⟩] :=
  (c2_one_send_one_increment stC2 1 0x100 0x02 0 [1, 2] (by decide) (by decide)
    (by decide) rfl).1 (by decide)

/-! ## Claim C3: how protocol failures reach the caller -/

/-- A concrete state whose trace holds one immediate response on the expected
identifier but echoing counter 9. -/
def stC3 : SysState :=
  { ctr := 0, dto := 0x200, sendFails := false, sent := [],
    events := [(0, ⟨0x200, [0xFF, 9, 0, 0, 0, 0, 0, 0]⟩)], now := 0 }

/-- C3 counterexample: the claim says the caller receives, along with the
absent result, a failure kind distinguishing Timeout from CounterMismatch.
But a transaction that times out (empty trace) and a transaction that hits a
counter mismatch (echoed 9, sent 5) both return exactly `None`: the caller
receives identical values and cannot distinguish the kinds (the distinction
exists only in log output). -/
theorem c3_failures_indistinguishable :
    (transaction stC2 1 0x100 0x03 5 []).1 = Except.ok none ∧
    (transaction stC3 1 0x100 0x03 5 []).1 = Except.ok none ∧
    (transaction stC2 1 0x100 0x03 5 []).1
      = (transaction stC3 1 0x100 0x03 5 []).1 := by
  have h1 : (transaction stC2 1 0x100 0x03 5 []).1 = Except.ok none :=
    transaction_no_match stC2 1 0x100 0x03 5 [] (by decide) (by decide)
      (by decide) (by decide) rfl (by simp [stC2])
  have h := transaction_first_match stC3 1 0x100 0x03 5 [] [] [] 0
    ⟨0x200, [0xFF, 9, 0, 0, 0, 0, 0, 0]⟩ (by decide) (by decide) (by decide)
    (by decide) rfl rfl (by simp) (by norm_num) (by norm_num [stC3]) rfl
  have h2 : (transaction stC3 1 0x100 0x03 5 []).1 = Except.ok none := by
    rw [h.1, if_neg (by decide)]
  exact ⟨h1, h2, h1.trans h2.symm⟩

/-- C3 (amended): when a transaction fails at protocol level (timeout or
wrong echoed counter) the caller receives an absent result (`None`) — the
same value in either case, with no failure kind distinguishing them in the
returned value — and no exception is raised: whenever the payload validates
and the transport send succeeds, the transaction returns normally; only the
malformed-argument error (payload over 6 bytes) raises, as `ValueError`,
before anything is sent. -/
theorem c3_protocol_failures_return_none (st : SysState) (timeout : ℚ)
    (can_id cmd ctr : Nat) (data : List Nat) (hc : cmd < 256) (hr : ctr < 256)
    (hd : ∀ b ∈ data, b < 256) (hsf : st.sendFails = false) :
    (data.length ≤ 6 →
      ∃ r, (transaction st timeout can_id cmd ctr data).1 = Except.ok r) ∧
    (data.length > 6 →
      transaction st timeout can_id cmd ctr data
        = (Except.error CcpError.valueError, st)) := by
  constructor
  · intro hlen
    rw [transaction_ok st timeout can_id cmd ctr data hc hr hd hlen hsf]
    dsimp only [postSend, get_data]
    rcases hgd : (get_data_loop st.dto (st.now + timeout) st.events st.now).1
      with _ | m
    · exact ⟨none, rfl⟩
    · by_cases hv : verify_ctr ctr m.data = true
      · exact ⟨some m.data, by dsimp only; rw [if_pos hv]⟩
      · exact ⟨none, by dsimp only; rw [if_neg hv]⟩
  · intro hlen
    unfold transaction send_cro
    rw [if_pos hlen]

/-- Witness for C3 (amended) at a concrete three-byte payload. -/
theorem c3_protocol_failures_return_none_witness :
    ∃ r, (transaction stC2 1 0x100 0x03 0 [1, 2, 3]).1 = Except.ok r :=
  (c3_protocol_failures_return_none stC2 1 0x100 0x03 0 [1, 2, 3] (by decide)
    (by decide) (by decide) rfl).1 (by decide)

/-! ## Claim C4: counter mismatch fails without re-polling -/

/-- C4: if the first frame on the response identifier — preceded only by
timely frames on other identifiers, all discarded — arrives within the
window but echoes a counter different from the one sent, the transaction
returns `None` rather than that frame's payload, and the trace after the
consumed frame is left untouched: no further poll happens. -/
theorem c4_counter_mismatch (st : SysState) (timeout : ℚ)
    (can_id cmd ctr : Nat) (data : List Nat) (pre post : List (ℚ × Msg))
    (t : ℚ) (m : Msg) (hc : cmd < 256) (hr : ctr < 256)
    (hd : ∀ b ∈ data, b < 256) (hlen : data.length ≤ 6)
    (hsf : st.sendFails = false) (hev : st.events = pre ++ (t, m) :: post)
    (hpre : ∀ e ∈ pre, e.1 < st.now + timeout ∧ e.2.arbitration_id ≠ st.dto)
    (ht0 : 0 < timeout) (ht : t ≤ st.now + timeout)
    (hm : m.arbitration_id = st.dto)
    (hv : verify_ctr ctr m.data = false) :
    (transaction st timeout can_id cmd ctr data).1 = Except.ok none ∧
    (transaction st timeout can_id cmd ctr data).2.events = post := by
  have h := transaction_first_match st timeout can_id cmd ctr data pre post
    t m hc hr hd hlen hsf hev hpre ht0 ht hm
  refine ⟨?_, h.2⟩
  rw [h.1, if_neg (by simp [hv])]

/-- A concrete state for C4: counter 5; the trace holds a timely frame on a
foreign identifier, then a timely response echoing 7, then a later response
echoing 5. -/
def stC4 : SysState :=
  { ctr := 5, dto := 0x200, sendFails := false, sent := [],
    events := [(1, ⟨0x300, []⟩), (2, ⟨0x200, [0xFF, 7, 0, 0, 0, 0, 0, 0]⟩),
      (3, ⟨0x200, [0xFF, 5, 0, 0, 0, 0, 0, 0]⟩)], now := 0 }

/-- Witness for C4: the mismatching frame (echo 7, sent 5) makes the
transaction return `None` and the correctly-echoing later frame is never
polled. -/
theorem c4_counter_mismatch_witness :
    (transaction stC4 2 0x100 0x03 5 [1]).1 = Except.ok none ∧
    (transaction stC4 2 0x100 0x03 5 [1]).2.events
      = [(3, ⟨0x200, [0xFF, 5, 0, 0, 0, 0, 0, 0]⟩)] :=
  c4_counter_mismatch stC4 2 0x100 0x03 5 [1] [(1, ⟨0x300, []⟩)]
    [(3, ⟨0x200, [0xFF, 5, 0, 0, 0, 0, 0, 0]⟩)] 2
    ⟨0x200, [0xFF, 7, 0, 0, 0, 0, 0, 0]⟩ (by decide) (by decide) (by decide)
    (by decide) rfl rfl (by norm_num [stC4]) (by norm_num)
    (by norm_num [stC4]) rfl (by decide)

/-! ## Claim C5: timeout still consumes one counter value -/

/-- C5: a transaction whose trace never carries the response identifier
returns `None` (a timeout), and the counter has still been incremented
exactly once by the send. -/
theorem c5_timeout_consumes_counter (st : SysState) (timeout : ℚ)
    (can_id cmd ctr : Nat) (data : List Nat) (hc : cmd < 256) (hr : ctr < 256)
    (hd : ∀ b ∈ data, b < 256) (hlen : data.length ≤ 6)
    (hsf : st.sendFails = false)
    (hnm : ∀ e ∈ st.events, e.2.arbitration_id ≠ st.dto) :
    (transaction st timeout can_id cmd ctr data).1 = Except.ok none ∧
    (transaction st timeout can_id cmd ctr data).2.ctr = nextCtr st.ctr :=
  ⟨transaction_no_match st timeout can_id cmd ctr data hc hr hd hlen hsf hnm,
   (transaction_sent_ctr st timeout can_id cmd ctr data hc hr hd hlen hsf).2⟩

/-- A concrete state for C5: counter 9, one frame on a foreign identifier. -/
def stC5 : SysState :=
  { ctr := 9, dto := 0x200, sendFails := false, sent := [],
    events := [(0, ⟨0x300, []⟩)], now := 0 }

/-- Witness for C5 at a concrete trace without a matching frame. -/
theorem c5_timeout_consumes_counter_witness :
    (transaction stC5 1 0x100 0x03 9 [1, 2]).1 = Except.ok none ∧
    (transaction stC5 1 0x100 0x03 9 [1, 2]).2.ctr = nextCtr stC5.ctr :=
  c5_timeout_consumes_counter stC5 1 0x100 0x03 9 [1, 2] (by decide)
    (by decide) (by decide) (by decide) rfl (by norm_num [stC5])

/-! ## Claim C7: command frame layout -/

/-- `List.getD` on a replicate of zeros is zero, in or out of bounds. -/
theorem getD_replicate_zero : ∀ (k j : Nat),
    (List.replicate k (0 : Nat)).getD j 0 = 0
  | 0, j => by cases j <;> rfl
  | _ + 1, 0 => rfl
  | k + 1, j + 1 => getD_replicate_zero k j

/-- C7: for every opcode, counter value and payload of at most six bytes,
the encoded command frame is exactly 8 bytes: byte0 is the opcode, byte1 is
the counter passed at call time, bytes2 onward are the payload, and every
remaining byte is zero. -/
theorem c7_frame_layout (cmd ctr : Nat) (data : List Nat)
    (hlen : data.length ≤ 6) :
    (encode_frame cmd ctr data).length = 8 ∧
    (encode_frame cmd ctr data).getD 0 0 = cmd ∧
    (encode_frame cmd ctr data).getD 1 0 = ctr ∧
    (∀ i, i < data.length →
      (encode_frame cmd ctr data).getD (2 + i) 0 = data.getD i 0) ∧
    (∀ i, 2 + data.length ≤ i → i < 8 →
      (encode_frame cmd ctr data).getD i 0 = 0) := by
  refine ⟨?_, rfl, rfl, fun i hi => ?_, fun i h1 h2 => ?_⟩
  · show ((cmd :: ctr :: data) ++ _).length = 8
    rw [List.length_append, List.length_replicate]
    show data.length + 1 + 1 + (8 - (data.length + 1 + 1)) = 8
    omega
  · show ((cmd :: ctr :: data) ++ _).getD (2 + i) 0 = data.getD i 0
    rw [List.getD_append _ _ _ _ (by simp; omega)]
    rw [show 2 + i = i + 1 + 1 by omega]
    rw [List.getD_cons_succ, List.getD_cons_succ]
  · obtain ⟨j, rfl⟩ : ∃ j, i = 2 + j := ⟨i - 2, by omega⟩
    show ((cmd :: ctr :: data) ++ _).getD (2 + j) 0 = 0
    rw [show 2 + j = j + 1 + 1 by omega]
    show (data ++ List.replicate (MAX_CRO - (cmd :: ctr :: data).length) 0
      ).getD j 0 = 0
    rw [List.getD_append_right _ _ _ _ (by omega)]
    exact getD_replicate_zero _ _

/-- Witness for C7 at a concrete three-byte payload. -/
theorem c7_frame_layout_witness :
    (encode_frame 1 2 [3, 4, 5]).length = 8 ∧
    (encode_frame 1 2 [3, 4, 5]).getD 0 0 = 1 :=
  ⟨(c7_frame_layout 1 2 [3, 4, 5] (by decide)).1,
   (c7_frame_layout 1 2 [3, 4, 5] (by decide)).2.1⟩

end PyCCP
